import Mathlib

/-!
# The Nexus verification service: challenge lifecycle

A shallow embedding of `internal/handlers/human.go` and `internal/handlers/ai.go`
(package `handlers` of the verification service), and theorems about the
challenge store and the two validators.

Conventions of the embedding
* A Go `string` is its sequence of bytes, `GoString := List Nat`; a byte is a
  natural number below 256.  `str` turns a literal into its UTF-8 bytes.
* `time.Time` is a reading of the clock in nanoseconds, `Time := Int`;
  `Add` is addition and `After` is `>`.
* The package-level `challenges` map is a value of type `Store`, threaded
  through every handler; `time.Now()` and the bytes read from `crypto/rand`
  are explicit arguments.
* A run-time panic (slice bound out of range) is the `none` of `Option`.
* The Go standard library functions the handlers call (`hex.EncodeToString`,
  `sha256.Sum256`) are written out: the first after `encoding/hex`, the second
  after FIPS 180-4.
* Request-method gating and JSON decoding/encoding happen before and after the
  part of each handler that is embedded here.
-/

namespace Nexus

/-! ## Go strings and time -/

/-- A Go string: an immutable sequence of bytes. -/
abbrev GoString := List Nat

/-- UTF-8 encoding of one code point, as Go stores it in a string. -/
def utf8Bytes (c : Nat) : List Nat :=
  if c < 0x80 then [c]
  else if c < 0x800 then [0xC0 + c / 0x40, 0x80 + c % 0x40]
  else if c < 0x10000 then [0xE0 + c / 0x1000, 0x80 + c / 0x40 % 0x40, 0x80 + c % 0x40]
  else [0xF0 + c / 0x40000, 0x80 + c / 0x1000 % 0x40, 0x80 + c / 0x40 % 0x40, 0x80 + c % 0x40]

/-- The bytes of a string literal. -/
def str (s : String) : GoString :=
  s.data.flatMap fun c => utf8Bytes c.toNat

/-- Go `s[:n]` on a string: the first `n` bytes; panics (`none`) when `n`
exceeds `len(s)`. -/
def sliceTo (s : GoString) (n : Nat) : Option GoString :=
  if n ≤ s.length then some (s.take n) else none

/-- A `time.Time`: nanoseconds on the clock. -/
abbrev Time := Int

/-- Go `time.Minute`, a `Duration` in nanoseconds. -/
def Minute : Int := 60 * 1000000000

/-- Go `t.Add(d)`. -/
def Time.Add (t : Time) (d : Int) : Time := t + d

/-- Go `t.After(u)`: whether `t` is strictly later than `u`. -/
def Time.After (t u : Time) : Bool := decide (u < t)

/-! ## `encoding/hex` -/

/-- The digit table of `encoding/hex`. -/
def hextable : GoString := str "0123456789abcdef"

/-- Go `hex.EncodeToString`: two lowercase digits per byte, high nibble first. -/
def EncodeToString (src : List Nat) : GoString :=
  src.flatMap fun v => [hextable.getD ((v % 256) >>> 4) 0, hextable.getD ((v % 256) &&& 0x0f) 0]

/-! ## `crypto/sha256` (FIPS 180-4) -/

namespace SHA256

/-- Reduction to a 32-bit word. -/
def w32 (x : Nat) : Nat := x % 4294967296

/-- Rotate a 32-bit word right by `n` bits. -/
def rotr (x n : Nat) : Nat := w32 ((x >>> n) ||| (x <<< (32 - n)))

/-- The choice function `Ch`. -/
def ch (x y z : Nat) : Nat := (x &&& y) ^^^ ((4294967295 - x) &&& z)

/-- The majority function `Maj`. -/
def maj (x y z : Nat) : Nat := (x &&& y) ^^^ (x &&& z) ^^^ (y &&& z)

/-- The function written Σ0 in the standard. -/
def bsig0 (x : Nat) : Nat := rotr x 2 ^^^ rotr x 13 ^^^ rotr x 22

/-- The function written Σ1 in the standard. -/
def bsig1 (x : Nat) : Nat := rotr x 6 ^^^ rotr x 11 ^^^ rotr x 25

/-- The function written σ0 in the standard. -/
def ssig0 (x : Nat) : Nat := rotr x 7 ^^^ rotr x 18 ^^^ (x >>> 3)

/-- The function written σ1 in the standard. -/
def ssig1 (x : Nat) : Nat := rotr x 17 ^^^ rotr x 19 ^^^ (x >>> 10)

/-- The sixty-four round constants (FIPS 180-4, 4.2.2), in decimal: the first 32
bits of the fractional parts of the cube roots of the first 64 primes. -/
def K : List Nat :=
  [1116352408, 1899447441, 3049323471, 3921009573, 961987163, 1508970993,
   2453635748, 2870763221, 3624381080, 310598401, 607225278, 1426881987,
   1925078388, 2162078206, 2614888103, 3248222580, 3835390401, 4022224774,
   264347078, 604807628, 770255983, 1249150122, 1555081692, 1996064986,
   2554220882, 2821834349, 2952996808, 3210313671, 3336571891, 3584528711,
   113926993, 338241895, 666307205, 773529912, 1294757372, 1396182291,
   1695183700, 1986661051, 2177026350, 2456956037, 2730485921, 2820302411,
   3259730800, 3345764771, 3516065817, 3600352804, 4094571909, 275423344,
   430227734, 506948616, 659060556, 883997877, 958139571, 1322822218,
   1537002063, 1747873779, 1955562222, 2024104815, 2227730452, 2361852424,
   2428436474, 2756734187, 3204031479, 3329325298]

/-- The eight working variables, also the chaining value. -/
structure Digest where
  a : Nat
  b : Nat
  c : Nat
  d : Nat
  e : Nat
  f : Nat
  g : Nat
  h : Nat
deriving DecidableEq, Repr

/-- The initial hash value. -/
def init : Digest :=
  { a := 0x6a09e667, b := 0xbb67ae85, c := 0x3c6ef372, d := 0xa54ff53a,
    e := 0x510e527f, f := 0x9b05688c, g := 0x1f83d9ab, h := 0x5be0cd19 }

/-- Message padding: a `0x80` byte, zero bytes up to 56 modulo 64, then the
bit length as 8 big-endian bytes. -/
def pad (m : List Nat) : List Nat :=
  m.map (· % 256) ++ [0x80] ++ List.replicate ((119 - m.length % 64) % 64) 0
    ++ (List.range 8).map fun i => (8 * m.length) >>> (8 * (7 - i)) % 256

/-- The sixteen big-endian words of a 64-byte block. -/
def blockWords (blk : List Nat) : List Nat :=
  (List.range 16).map fun j =>
    blk.getD (4 * j) 0 * 16777216 + blk.getD (4 * j + 1) 0 * 65536
      + blk.getD (4 * j + 2) 0 * 256 + blk.getD (4 * j + 3) 0

/-- The message schedule: words 16..63 are derived from the sixteen before. -/
def schedule (w16 : List Nat) : List Nat :=
  (List.range 48).foldl
    (fun w i =>
      let t := i + 16
      w ++ [w32 (ssig1 (w.getD (t - 2) 0) + w.getD (t - 7) 0
                  + ssig0 (w.getD (t - 15) 0) + w.getD (t - 16) 0)])
    w16

/-- One round of the compression function. -/
def round (s : Digest) (k w : Nat) : Digest :=
  let t1 := w32 (s.h + bsig1 s.e + ch s.e s.f s.g + k + w)
  let t2 := w32 (bsig0 s.a + maj s.a s.b s.c)
  { a := w32 (t1 + t2), b := s.a, c := s.b, d := s.c,
    e := w32 (s.d + t1), f := s.e, g := s.f, h := s.g }

/-- The compression function on one 64-byte block. -/
def compress (H : Digest) (blk : List Nat) : Digest :=
  let s := (List.zip K (schedule (blockWords blk))).foldl (fun s kw => round s kw.1 kw.2) H
  { a := w32 (H.a + s.a), b := w32 (H.b + s.b), c := w32 (H.c + s.c), d := w32 (H.d + s.d),
    e := w32 (H.e + s.e), f := w32 (H.f + s.f), g := w32 (H.g + s.g), h := w32 (H.h + s.h) }

/-- The four big-endian bytes of a 32-bit word. -/
def wordBytes (x : Nat) : List Nat :=
  [x >>> 24 % 256, x >>> 16 % 256, x >>> 8 % 256, x % 256]

/-- Go `sha256.Sum256`: the 32-byte digest of `data`. -/
def Sum256 (data : List Nat) : List Nat :=
  let p := pad data
  let H := (List.range (p.length / 64)).foldl
    (fun H i => compress H ((p.drop (64 * i)).take 64)) init
  wordBytes H.a ++ wordBytes H.b ++ wordBytes H.c ++ wordBytes H.d
    ++ wordBytes H.e ++ wordBytes H.f ++ wordBytes H.g ++ wordBytes H.h

end SHA256

/-! ## Data model (`human.go`, `ai.go`) -/

/-- The record kept in the store, for both kinds of challenge (the Go field
`Type` is written `Type_`). -/
structure HumanChallenge where
  ID : GoString
  Type_ : GoString
  Prompt : GoString
  ExpiresAt : Time
deriving DecidableEq, Repr

/-- The body of a human validation request. -/
structure ValidationRequest where
  ChallengeID : GoString
  Response : GoString
deriving DecidableEq, Repr

/-- The answer of the human validator. -/
structure ValidationResult where
  Valid : Bool
  Message : GoString
deriving DecidableEq, Repr

/-- The computational challenge as returned to the caller (the Go field `Type`
is written `Type_`). -/
structure AIChallenge where
  ID : GoString
  Type_ : GoString
  Difficulty : Int
  Payload : GoString
  TimeLimit : Int
  ExpiresAt : Time
deriving DecidableEq, Repr

/-- The body of a computational validation request. -/
structure AIValidationRequest where
  ChallengeID : GoString
  Solution : GoString
  Reasoning : GoString
deriving DecidableEq, Repr

/-- The answer of the computational validator; the score is a `float64`. -/
structure AIValidationResult where
  Valid : Bool
  AutonomyScore : Float
  Message : GoString

/-- The package-level map `challenges`: key to record, absent keys to `none`. -/
abbrev Store := GoString → Option HumanChallenge

/-- The map as created by `make(map[string]HumanChallenge)`. -/
def challenges : Store := fun _ => none

/-- Go `m[k] = v`. -/
def Store.set (m : Store) (k : GoString) (v : HumanChallenge) : Store :=
  fun x => if x = k then some v else m x

/-- Go `delete(m, k)`. -/
def Store.delete (m : Store) (k : GoString) : Store :=
  fun x => if x = k then none else m x

/-! ## Handlers -/

/-- `generateID` (human.go 34-38): a 16-byte zeroed buffer, overwritten with
what `rand.Read` delivers (`rnd`), hex-encoded. -/
def generateID (rnd : List Nat) : GoString :=
  EncodeToString ((List.range 16).map fun i => rnd.getD i 0 % 256)

/-- `GenerateHumanChallenge` (human.go 46-55): the record returned to the caller
and the store after the insertion. -/
def GenerateHumanChallenge (m : Store) (now : Time) (rnd : List Nat) : HumanChallenge × Store :=
  let challenge : HumanChallenge :=
    { ID := generateID rnd
      Type_ := str "behavioral"
      Prompt := str "Move your cursor naturally to the target. Pause occasionally. Be human."
      ExpiresAt := now.Add (5 * Minute) }
  (challenge, m.set challenge.ID challenge)

/-- `ValidateHumanChallenge` after its lookup (human.go 77-91): `snap` is the
pair `challenge, exists` read under the read lock, `m` the map at the time the
write lock is taken. -/
def validateHumanTail (snap : Option HumanChallenge) (now : Time) (req : ValidationRequest)
    (m : Store) : ValidationResult × Store :=
  match snap with
  | none => ({ Valid := false, Message := str "Challenge not found or expired" }, m)
  | some challenge =>
    if now.After challenge.ExpiresAt then
      ({ Valid := false, Message := str "Challenge expired" }, m.delete req.ChallengeID)
    else
      ({ Valid := true, Message := str "Human verification passed" }, m.delete req.ChallengeID)

/-- `ValidateHumanChallenge` (human.go 73-91), run without interruption. -/
def ValidateHumanChallenge (m : Store) (now : Time) (req : ValidationRequest) :
    ValidationResult × Store :=
  validateHumanTail (m req.ChallengeID) now req m

/-- The format of the computational payload, `fmt.Sprintf` with one `%s`. -/
def payloadFormat (p : GoString) : GoString :=
  str "Compute SHA-256 of \x27" ++ p ++ str "\x27 and return the first 8 hex chars"

/-- `GenerateAIChallenge` (ai.go 39-52): the challenge returned to the caller and
the store after the insertion; `none` when `id[:8]` is out of range. -/
def GenerateAIChallenge (m : Store) (now : Time) (rnd : List Nat) : Option (AIChallenge × Store) :=
  let id := generateID rnd
  match sliceTo id 8 with
  | none => none
  | some p =>
    let challenge : AIChallenge :=
      { ID := id
        Type_ := str "computational"
        Difficulty := 1
        Payload := payloadFormat p
        TimeLimit := 5000
        ExpiresAt := now.Add (1 * Minute) }
    some (challenge,
      m.set challenge.ID { ID := id, Type_ := [], Prompt := [], ExpiresAt := challenge.ExpiresAt })

/-- The solution the computational validator expects for a stored record
(ai.go 80-81); `none` when a slice is out of range. -/
def expectedSolution (challenge : HumanChallenge) : Option GoString :=
  match sliceTo challenge.ID 8 with
  | none => none
  | some p => sliceTo (EncodeToString (SHA256.Sum256 p)) 8

/-- `ValidateAIChallenge` after its lookup (ai.go 74-92): `snap` is the pair
`challenge, exists` read under the read lock, `m` the map at the time the write
lock is taken; `none` when a slice panics. -/
def validateAITail (snap : Option HumanChallenge) (now : Time) (req : AIValidationRequest)
    (m : Store) : Option (AIValidationResult × Store) :=
  match snap with
  | none =>
    some ({ Valid := false, AutonomyScore := 0, Message := str "Challenge not found or expired" }, m)
  | some challenge =>
    if now.After challenge.ExpiresAt then
      some ({ Valid := false, AutonomyScore := 0, Message := str "Challenge expired" }, m)
    else
      match expectedSolution challenge with
      | none => none
      | some expected =>
        if req.Solution = expected then
          some ({ Valid := true, AutonomyScore := 0.95,
                  Message := str "AI verification passed - autonomy confirmed" },
                m.delete req.ChallengeID)
        else
          some ({ Valid := false, AutonomyScore := 0, Message := str "Incorrect solution" },
                m.delete req.ChallengeID)

/-- `ValidateAIChallenge` (ai.go 70-92), run without interruption. -/
def ValidateAIChallenge (m : Store) (now : Time) (req : AIValidationRequest) :
    Option (AIValidationResult × Store) :=
  validateAITail (m req.ChallengeID) now req m

/-! ## Reachable stores -/

/-- A lowercase hexadecimal digit, as an ASCII byte. -/
def isLowerHex (b : Nat) : Prop := (48 ≤ b ∧ b ≤ 57) ∨ (97 ≤ b ∧ b ≤ 102)

instance (b : Nat) : Decidable (isLowerHex b) := by
  unfold isLowerHex; infer_instance

/-- The stores the service can be in: from the empty map, by any sequence of
calls of the four handlers, with any clock readings, random bytes and request
bodies.  A handler that panics returns nothing and leaves the map as it was. -/
inductive Reachable : Store → Prop
  | start : Reachable challenges
  | generateHuman (m : Store) (now : Time) (rnd : List Nat) :
      Reachable m → Reachable (GenerateHumanChallenge m now rnd).2
  | validateHuman (m : Store) (now : Time) (req : ValidationRequest) :
      Reachable m → Reachable (ValidateHumanChallenge m now req).2
  | generateAI (m : Store) (now : Time) (rnd : List Nat) (ch : AIChallenge) (m1 : Store) :
      Reachable m → GenerateAIChallenge m now rnd = some (ch, m1) → Reachable m1
  | validateAI (m : Store) (now : Time) (req : AIValidationRequest) (r : AIValidationResult)
      (m1 : Store) :
      Reachable m → ValidateAIChallenge m now req = some (r, m1) → Reachable m1

/-! ## Concurrent validation calls

Each validator reads the map under the read lock, releases it, and only later
takes the write lock for its `delete`.  A call in flight is therefore in one of
three states, and one scheduling step moves one call from a state to the next. -/

/-- A validation call in flight, with results of type `ρ`. -/
inductive Call (ρ : Type) where
  /-- The call has not yet taken the read lock. -/
  | ready
  /-- The call holds its local copy `challenge, exists` and no lock. -/
  | looked (snap : Option HumanChallenge)
  /-- The call has finished; `none` is a panic. -/
  | finished (r : Option ρ)

/-- One step of a call: the read-locked lookup of `id`, then the rest of the
handler `rest`, which works on the local copy and on the map as it is by then. -/
def Call.step {ρ : Type} (id : GoString)
    (rest : Option HumanChallenge → Store → Option (ρ × Store))
    (c : Call ρ) (m : Store) : Call ρ × Store :=
  match c with
  | .ready => (.looked (m id), m)
  | .looked snap =>
    match rest snap m with
    | none => (.finished none, m)
    | some (r, m1) => (.finished (some r), m1)
  | .finished r => (.finished r, m)

/-- Run a schedule: each entry names the call that takes the next step. -/
def runSchedule {ρ : Type} (id : GoString)
    (rest : Option HumanChallenge → Store → Option (ρ × Store)) :
    List Nat → List (Call ρ) × Store → List (Call ρ) × Store
  | [], st => st
  | i :: sched, (calls, m) =>
    match calls.get? i with
    | none => runSchedule id rest sched (calls, m)
    | some c =>
      let (c1, m1) := c.step id rest m
      runSchedule id rest sched (calls.set i c1, m1)

/-- `K` concurrent calls of `ValidateHumanChallenge` with the same body at clock
reading `now`, stepped along `sched`. -/
def concurrentHuman (m : Store) (now : Time) (req : ValidationRequest) (K : Nat)
    (sched : List Nat) : List (Call ValidationResult) × Store :=
  runSchedule req.ChallengeID (fun snap m1 => some (validateHumanTail snap now req m1)) sched
    (List.replicate K .ready, m)

/-- `K` concurrent calls of `ValidateAIChallenge` with the same body at clock
reading `now`, stepped along `sched`. -/
def concurrentAI (m : Store) (now : Time) (req : AIValidationRequest) (K : Nat)
    (sched : List Nat) : List (Call AIValidationResult) × Store :=
  runSchedule req.ChallengeID (fun snap m1 => validateAITail snap now req m1) sched
    (List.replicate K .ready, m)

/-- The `valid` flags of the calls that have returned a result. -/
def validFlags {ρ : Type} (valid : ρ → Bool) (calls : List (Call ρ)) : List Bool :=
  calls.filterMap fun c =>
    match c with
    | .finished (some r) => some (valid r)
    | _ => none

/-! ## Sample inputs -/

/-- Sixteen random bytes whose hex encoding starts `abcdef1234567890`. -/
def sampleRnd : List Nat :=
  [0xab, 0xcd, 0xef, 0x12, 0x34, 0x56, 0x78, 0x90, 0, 1, 2, 3, 4, 5, 6, 7]

/-- The store after one human challenge was issued at time 0. -/
def storeAfterHuman : Store := (GenerateHumanChallenge challenges 0 sampleRnd).2

/-- The store after one computational challenge was issued at time 0. -/
def storeAfterAI : Store :=
  match GenerateAIChallenge challenges 0 sampleRnd with
  | some (_, m) => m
  | none => challenges

/-- The solution of the computational challenge for `sampleRnd`. -/
def sampleSolution : GoString :=
  (EncodeToString (SHA256.Sum256 ((generateID sampleRnd).take 8))).take 8

/-! ## Lemmas on the store, the hex encoding and the digest -/

/-- A deleted key is absent. -/
@[simp] theorem Store.delete_self (m : Store) (k : GoString) : (m.delete k) k = none := by
  simp [Store.delete]

/-- A key just set holds the value set. -/
@[simp] theorem Store.set_self (m : Store) (k : GoString) (v : HumanChallenge) :
    (m.set k v) k = some v := by
  simp [Store.set]

/-- Deleting a key leaves every other key as it was. -/
theorem Store.delete_of_ne (m : Store) (k x : GoString) (h : x ≠ k) :
    (m.delete k) x = m x := by
  simp [Store.delete, h]

/-- Setting a key leaves every other key as it was. -/
theorem Store.set_of_ne (m : Store) (k x : GoString) (v : HumanChallenge) (h : x ≠ k) :
    (m.set k v) x = m x := by
  simp [Store.set, h]

/-- A clock reading not past the deadline is not `After` it. -/
theorem After_eq_false_of_le {now u : Time} (h : now ≤ u) : now.After u = false := by
  simp [Time.After, h]

/-- A clock reading past the deadline is `After` it. -/
theorem After_eq_true_of_lt {now u : Time} (h : u < now) : now.After u = true := by
  simp [Time.After, h]

/-- The hex encoding has two digits per byte. -/
theorem EncodeToString_length (src : List Nat) : (EncodeToString src).length = 2 * src.length := by
  induction src with
  | nil => rfl
  | cons v vs ih =>
    simp only [EncodeToString, List.flatMap_cons, List.length_append, List.length_cons,
      List.length_nil] at ih ⊢
    omega

set_option maxRecDepth 20000 in
/-- Both digits written for a byte are lowercase hex digits. -/
theorem hexDigits_of_byte : ∀ v, v < 256 →
    isLowerHex (hextable.getD (v >>> 4) 0) ∧ isLowerHex (hextable.getD (v &&& 0x0f) 0) := by
  decide

/-- The hex encoding consists of lowercase hex digits. -/
theorem EncodeToString_hex (src : List Nat) : ∀ b ∈ EncodeToString src, isLowerHex b := by
  intro b hb
  simp only [EncodeToString, List.mem_flatMap] at hb
  obtain ⟨v, -, hv⟩ := hb
  have h := hexDigits_of_byte (v % 256) (Nat.mod_lt _ (by decide))
  simp only [List.mem_cons, List.mem_singleton, List.mem_nil_iff, or_false] at hv
  rcases hv with rfl | rfl
  · exact h.1
  · exact h.2

/-- A digest has 32 bytes. -/
theorem Sum256_length (data : List Nat) : (SHA256.Sum256 data).length = 32 := by
  simp [SHA256.Sum256, SHA256.wordBytes]

/-- An id has 32 bytes. -/
theorem generateID_length (rnd : List Nat) : (generateID rnd).length = 32 := by
  simp [generateID, EncodeToString_length]

/-- An id consists of lowercase hex digits. -/
theorem generateID_hex (rnd : List Nat) : ∀ b ∈ generateID rnd, isLowerHex b :=
  EncodeToString_hex _

/-- A slice within the length does not panic. -/
theorem sliceTo_of_le {s : GoString} {n : Nat} (h : n ≤ s.length) :
    sliceTo s n = some (s.take n) := by
  simp [sliceTo, h]

/-- The expected solution of a record whose id has at least 8 bytes. -/
theorem expectedSolution_of_le {c : HumanChallenge} (h : 8 ≤ c.ID.length) :
    expectedSolution c = some ((EncodeToString (SHA256.Sum256 (c.ID.take 8))).take 8) := by
  have h2 : 8 ≤ (EncodeToString (SHA256.Sum256 (c.ID.take 8))).length := by
    rw [EncodeToString_length, Sum256_length]; decide
  simp [expectedSolution, sliceTo_of_le h, sliceTo_of_le h2]

/-- The computational issuer never panics; its challenge and its store. -/
theorem GenerateAIChallenge_eq (m : Store) (now : Time) (rnd : List Nat) :
    GenerateAIChallenge m now rnd = some
      ({ ID := generateID rnd, Type_ := str "computational", Difficulty := 1,
         Payload := payloadFormat ((generateID rnd).take 8), TimeLimit := 5000,
         ExpiresAt := now + 1 * Minute },
       m.set (generateID rnd)
         { ID := generateID rnd, Type_ := [], Prompt := [], ExpiresAt := now + 1 * Minute }) := by
  have h : 8 ≤ (generateID rnd).length := by rw [generateID_length]; decide
  simp [GenerateAIChallenge, sliceTo_of_le h, Time.Add]

/-- The human validator on an absent id. -/
theorem ValidateHumanChallenge_absent (m : Store) (now : Time) (req : ValidationRequest)
    (h : m req.ChallengeID = none) :
    ValidateHumanChallenge m now req
      = ({ Valid := false, Message := str "Challenge not found or expired" }, m) := by
  simp [ValidateHumanChallenge, validateHumanTail, h]

/-- After the human validator, the id is absent. -/
theorem ValidateHumanChallenge_removes (m : Store) (now : Time) (req : ValidationRequest) :
    (ValidateHumanChallenge m now req).2 req.ChallengeID = none := by
  unfold ValidateHumanChallenge validateHumanTail
  cases hm : m req.ChallengeID with
  | none => simpa using hm
  | some c => by_cases ha : now.After c.ExpiresAt = true <;> simp [ha]

/-- The human validator on a live record. -/
theorem ValidateHumanChallenge_live (m : Store) (now : Time) (req : ValidationRequest)
    (c : HumanChallenge) (hfound : m req.ChallengeID = some c) (hlive : now ≤ c.ExpiresAt) :
    ValidateHumanChallenge m now req
      = ({ Valid := true, Message := str "Human verification passed" },
         m.delete req.ChallengeID) := by
  simp [ValidateHumanChallenge, validateHumanTail, hfound, After_eq_false_of_le hlive]

/-- The computational validator on a live record with a sliceable id. -/
theorem ValidateAIChallenge_live (m : Store) (now : Time) (req : AIValidationRequest)
    (c : HumanChallenge) (hfound : m req.ChallengeID = some c) (hlive : now ≤ c.ExpiresAt)
    (hlen : 8 ≤ c.ID.length) :
    ValidateAIChallenge m now req = some
      (if req.Solution = (EncodeToString (SHA256.Sum256 (c.ID.take 8))).take 8 then
          { Valid := true, AutonomyScore := 0.95,
            Message := str "AI verification passed - autonomy confirmed" }
        else { Valid := false, AutonomyScore := 0, Message := str "Incorrect solution" },
       m.delete req.ChallengeID) := by
  simp only [ValidateAIChallenge, validateAITail, hfound, After_eq_false_of_le hlive,
    expectedSolution_of_le hlen, Bool.false_eq_true, if_false]
  by_cases hs : req.Solution = (EncodeToString (SHA256.Sum256 (c.ID.take 8))).take 8
  · rw [if_pos hs, if_pos hs]
  · rw [if_neg hs, if_neg hs]

/-- The computational validator on an expired record: the store is returned as it was. -/
theorem ValidateAIChallenge_expired (m : Store) (now : Time) (req : AIValidationRequest)
    (c : HumanChallenge) (hfound : m req.ChallengeID = some c) (hlate : c.ExpiresAt < now) :
    ValidateAIChallenge m now req
      = some ({ Valid := false, AutonomyScore := 0, Message := str "Challenge expired" }, m) := by
  simp [ValidateAIChallenge, validateAITail, hfound, After_eq_true_of_lt hlate]

/-- The computational validator returns the store as it was or with its key deleted. -/
theorem ValidateAIChallenge_store (m : Store) (now : Time) (req : AIValidationRequest)
    (r : AIValidationResult) (m1 : Store) (h : ValidateAIChallenge m now req = some (r, m1)) :
    m1 = m ∨ m1 = m.delete req.ChallengeID := by
  unfold ValidateAIChallenge validateAITail at h
  cases hm : m req.ChallengeID with
  | none =>
    rw [hm] at h
    simp only [Option.some.injEq, Prod.mk.injEq] at h
    exact Or.inl h.2.symm
  | some c =>
    rw [hm] at h
    simp only at h
    split at h
    · simp only [Option.some.injEq, Prod.mk.injEq] at h
      exact Or.inl h.2.symm
    · split at h
      · exact absurd h (by simp)
      · split at h <;>
          (simp only [Option.some.injEq, Prod.mk.injEq] at h; exact Or.inr h.2.symm)

/-- The human validator returns the store as it was or with its key deleted. -/
theorem ValidateHumanChallenge_store (m : Store) (now : Time) (req : ValidationRequest) :
    (ValidateHumanChallenge m now req).2 = m ∨
      (ValidateHumanChallenge m now req).2 = m.delete req.ChallengeID := by
  unfold ValidateHumanChallenge validateHumanTail
  cases m req.ChallengeID with
  | none => exact Or.inl rfl
  | some c => by_cases ha : now.After c.ExpiresAt = true <;> simp [ha]

/-- What is present after a delete was present before. -/
theorem Store.delete_some (m : Store) (k x : GoString) (c : HumanChallenge)
    (h : (m.delete k) x = some c) : m x = some c := by
  unfold Store.delete at h
  split at h
  · exact absurd h (by simp)
  · exact h

/-- In a reachable store every record sits under its own id, a `generateID` value. -/
theorem Reachable.ids (m : Store) (h : Reachable m) :
    ∀ k c, m k = some c → c.ID = k ∧ ∃ rnd, k = generateID rnd := by
  induction h with
  | start => intro k c hk; exact absurd hk (by simp [challenges])
  | generateHuman m now rnd _ ih =>
    intro k c hk
    by_cases hkid : k = generateID rnd
    · subst hkid
      simp only [GenerateHumanChallenge, Store.set_self, Option.some.injEq] at hk
      subst hk
      exact ⟨rfl, rnd, rfl⟩
    · simp only [GenerateHumanChallenge] at hk
      rw [Store.set_of_ne _ _ _ _ hkid] at hk
      exact ih k c hk
  | validateHuman m now req _ ih =>
    intro k c hk
    rcases ValidateHumanChallenge_store m now req with h1 | h1
    · rw [h1] at hk; exact ih k c hk
    · rw [h1] at hk; exact ih k c (Store.delete_some _ _ _ _ hk)
  | generateAI m now rnd ch m1 _ hgen ih =>
    intro k c hk
    rw [GenerateAIChallenge_eq] at hgen
    simp only [Option.some.injEq, Prod.mk.injEq] at hgen
    obtain ⟨-, rfl⟩ := hgen
    by_cases hkid : k = generateID rnd
    · subst hkid
      simp only [Store.set_self, Option.some.injEq] at hk
      subst hk
      exact ⟨rfl, rnd, rfl⟩
    · rw [Store.set_of_ne _ _ _ _ hkid] at hk
      exact ih k c hk
  | validateAI m now req r m1 _ hval ih =>
    intro k c hk
    rcases ValidateAIChallenge_store m now req r m1 hval with h1 | h1
    · rw [h1] at hk; exact ih k c hk
    · rw [h1] at hk; exact ih k c (Store.delete_some _ _ _ _ hk)

/-- With sliceable ids in the store the computational validator does not panic. -/
theorem ValidateAIChallenge_isSome (m : Store) (now : Time) (req : AIValidationRequest)
    (hlen : ∀ c, m req.ChallengeID = some c → 8 ≤ c.ID.length) :
    (ValidateAIChallenge m now req).isSome = true := by
  unfold ValidateAIChallenge validateAITail
  cases hm : m req.ChallengeID with
  | none => rfl
  | some c =>
    simp only [expectedSolution_of_le (hlen c hm)]
    split
    · rfl
    · split <;> rfl

/-! ## The validators on one record -/

/-- C1. `ValidateAIChallenge` on a live record: when `id` is in the store, the
clock is not after the record's `ExpiresAt` and the stored id has the 8 bytes
the handler slices (as every issued id has), the call returns a result and a
store from which `id` is gone; the result is the pass result
`(true, 0.95, "AI verification passed - autonomy confirmed")` exactly when the
solution equals the first 8 hex digits of SHA-256 of the first 8 bytes of the
stored id, and `(false, 0, "Incorrect solution")` otherwise. -/
theorem validateAI_live_iff_expected (m : Store) (now : Time) (req : AIValidationRequest)
    (c : HumanChallenge) (hfound : m req.ChallengeID = some c) (hlive : now ≤ c.ExpiresAt)
    (hlen : 8 ≤ c.ID.length) :
    ∃ r m1, ValidateAIChallenge m now req = some (r, m1) ∧ m1 req.ChallengeID = none ∧
      (r = { Valid := true, AutonomyScore := 0.95,
             Message := str "AI verification passed - autonomy confirmed" } ↔
        req.Solution = (EncodeToString (SHA256.Sum256 (c.ID.take 8))).take 8) ∧
      (req.Solution ≠ (EncodeToString (SHA256.Sum256 (c.ID.take 8))).take 8 →
        r = { Valid := false, AutonomyScore := 0, Message := str "Incorrect solution" }) := by
  have hrun := ValidateAIChallenge_live m now req c hfound hlive hlen
  refine ⟨_, _, hrun, Store.delete_self _ _, ?_, ?_⟩
  · constructor
    · intro h
      by_contra hs
      rw [if_neg hs] at h
      have hv := congrArg AIValidationResult.Valid h
      simp at hv
    · intro hs
      rw [if_pos hs]
  · intro hs
    rw [if_neg hs]

/-- Witness of C1: the record issued for `sampleRnd` at time 0, validated at
time 5 with the right solution. -/
theorem validateAI_live_iff_expected_witness :
    ∃ r m1, ValidateAIChallenge storeAfterAI 5
        { ChallengeID := generateID sampleRnd, Solution := sampleSolution, Reasoning := [] }
          = some (r, m1) ∧
      m1 (generateID sampleRnd) = none ∧
      (r = { Valid := true, AutonomyScore := 0.95,
             Message := str "AI verification passed - autonomy confirmed" } ↔
        sampleSolution = (EncodeToString (SHA256.Sum256 ((generateID sampleRnd).take 8))).take 8) ∧
      (sampleSolution ≠ (EncodeToString (SHA256.Sum256 ((generateID sampleRnd).take 8))).take 8 →
        r = { Valid := false, AutonomyScore := 0, Message := str "Incorrect solution" }) :=
  validateAI_live_iff_expected storeAfterAI 5
    { ChallengeID := generateID sampleRnd, Solution := sampleSolution, Reasoning := [] }
    { ID := generateID sampleRnd, Type_ := [], Prompt := [], ExpiresAt := 0 + 1 * Minute }
    (by decide) (by decide) (by decide)

/-- C4. Expiry: when `id` is in the store and the clock is strictly after the
record's `ExpiresAt`, `ValidateHumanChallenge` answers
`(false, "Challenge expired")` and `ValidateAIChallenge` answers
`(false, 0, "Challenge expired")`, whatever response or solution is sent. -/
theorem validate_after_expiry_rejects (m : Store) (now : Time) (id : GoString)
    (c : HumanChallenge) (hfound : m id = some c) (hlate : c.ExpiresAt < now)
    (response solution reasoning : GoString) :
    (ValidateHumanChallenge m now { ChallengeID := id, Response := response }).1
        = { Valid := false, Message := str "Challenge expired" } ∧
      ∃ m1, ValidateAIChallenge m now
          { ChallengeID := id, Solution := solution, Reasoning := reasoning }
        = some ({ Valid := false, AutonomyScore := 0, Message := str "Challenge expired" }, m1) := by
  constructor
  · simp [ValidateHumanChallenge, validateHumanTail, hfound, After_eq_true_of_lt hlate]
  · exact ⟨m, by simp [ValidateAIChallenge, validateAITail, hfound, After_eq_true_of_lt hlate]⟩

/-- Witness of C4: the record issued at time 0 (one minute to live), validated
one nanosecond too late with the right solution. -/
theorem validate_after_expiry_rejects_witness :
    (ValidateHumanChallenge storeAfterAI (Minute + 1)
        { ChallengeID := generateID sampleRnd, Response := [] }).1
        = { Valid := false, Message := str "Challenge expired" } ∧
      ∃ m1, ValidateAIChallenge storeAfterAI (Minute + 1)
          { ChallengeID := generateID sampleRnd, Solution := sampleSolution, Reasoning := [] }
        = some ({ Valid := false, AutonomyScore := 0, Message := str "Challenge expired" }, m1) :=
  validate_after_expiry_rejects storeAfterAI (Minute + 1) (generateID sampleRnd)
    { ID := generateID sampleRnd, Type_ := [], Prompt := [], ExpiresAt := 0 + 1 * Minute }
    (by decide) (by decide) [] sampleSolution []

/-- C6. Single use of a human validation: after `ValidateHumanChallenge` on
`id` at any time with any response and from any store, a second
`ValidateHumanChallenge` on `id`, at any time (in particular a later one) and
with any response, answers `(false, "Challenge not found or expired")`. -/
theorem validateHuman_twice_not_found (m : Store) (id r1 r2 : GoString) (t1 t2 : Time) :
    (ValidateHumanChallenge
        (ValidateHumanChallenge m t1 { ChallengeID := id, Response := r1 }).2 t2
        { ChallengeID := id, Response := r2 }).1
      = { Valid := false, Message := str "Challenge not found or expired" } := by
  exact congrArg Prod.fst (ValidateHumanChallenge_absent _ t2 _
    (ValidateHumanChallenge_removes m t1 { ChallengeID := id, Response := r1 }))

/-- C7. An id that is not a key of the store: `ValidateHumanChallenge` answers
`(false, "Challenge not found or expired")`, `ValidateAIChallenge` answers
`(false, 0, "Challenge not found or expired")`, both leave the store as it
was, and so does any number of repetitions of either call. -/
theorem validate_absent_not_found_unchanged (m : Store) (id : GoString) (habsent : m id = none)
    (now : Time) (response solution reasoning : GoString) :
    ValidateHumanChallenge m now { ChallengeID := id, Response := response }
        = ({ Valid := false, Message := str "Challenge not found or expired" }, m) ∧
      ValidateAIChallenge m now { ChallengeID := id, Solution := solution, Reasoning := reasoning }
        = some ({ Valid := false, AutonomyScore := 0,
                  Message := str "Challenge not found or expired" }, m) ∧
      ∀ n : Nat,
        (fun m1 => (ValidateHumanChallenge m1 now
            { ChallengeID := id, Response := response }).2)^[n] m = m ∧
        (fun m1 => ((ValidateAIChallenge m1 now
            { ChallengeID := id, Solution := solution, Reasoning := reasoning }).map
              Prod.snd).getD m1)^[n] m = m := by
  have hH : ValidateHumanChallenge m now { ChallengeID := id, Response := response }
      = ({ Valid := false, Message := str "Challenge not found or expired" }, m) := by
    simp [ValidateHumanChallenge, validateHumanTail, habsent]
  have hA : ValidateAIChallenge m now
      { ChallengeID := id, Solution := solution, Reasoning := reasoning }
      = some ({ Valid := false, AutonomyScore := 0,
                Message := str "Challenge not found or expired" }, m) := by
    simp [ValidateAIChallenge, validateAITail, habsent]
  refine ⟨hH, hA, fun n => ⟨?_, ?_⟩⟩
  · apply Function.iterate_fixed
    simp [hH]
  · apply Function.iterate_fixed
    simp [hA]

/-- Witness of C7: the empty store and the id of `sampleRnd`. -/
theorem validate_absent_not_found_unchanged_witness :
    ValidateHumanChallenge challenges 0 { ChallengeID := generateID sampleRnd, Response := [] }
        = ({ Valid := false, Message := str "Challenge not found or expired" }, challenges) ∧
      ValidateAIChallenge challenges 0
          { ChallengeID := generateID sampleRnd, Solution := [], Reasoning := [] }
        = some ({ Valid := false, AutonomyScore := 0,
                  Message := str "Challenge not found or expired" }, challenges) ∧
      ∀ n : Nat,
        (fun m1 => (ValidateHumanChallenge m1 0
            { ChallengeID := generateID sampleRnd, Response := [] }).2)^[n] challenges
          = challenges ∧
        (fun m1 => ((ValidateAIChallenge m1 0
            { ChallengeID := generateID sampleRnd, Solution := [], Reasoning := [] }).map
              Prod.snd).getD m1)^[n] challenges = challenges :=
  validate_absent_not_found_unchanged challenges (generateID sampleRnd) rfl 0 [] [] []

/-! ## Issue, then validate -/

/-- C2. Human pass-through: when `GenerateHumanChallenge` runs at time `t`, it
returns a record with a fresh id and `ExpiresAt = t + 5 min`; in any later
store `m1` that still holds that record under the id (nothing validated the id
in between), `ValidateHumanChallenge` on the id at any time `t1` not after
`t + 5 min` answers `(true, "Human verification passed")` for every response,
and the id is gone from the store afterwards. -/
theorem human_issue_then_validate_passes (m : Store) (t : Time) (rnd : List Nat) (m1 : Store)
    (t1 : Time) (response : GoString)
    (hkept : m1 (generateID rnd) = (GenerateHumanChallenge m t rnd).2 (generateID rnd))
    (hbefore : t1 ≤ t + 5 * Minute) :
    (GenerateHumanChallenge m t rnd).1.ID = generateID rnd ∧
      (GenerateHumanChallenge m t rnd).1.ExpiresAt = t + 5 * Minute ∧
      (GenerateHumanChallenge m t rnd).2 (generateID rnd)
        = some (GenerateHumanChallenge m t rnd).1 ∧
      ∃ m2, ValidateHumanChallenge m1 t1
          { ChallengeID := (GenerateHumanChallenge m t rnd).1.ID, Response := response }
          = ({ Valid := true, Message := str "Human verification passed" }, m2) ∧
        m2 (generateID rnd) = none := by
  refine ⟨rfl, rfl, by simp [GenerateHumanChallenge], m1.delete (generateID rnd), ?_,
    Store.delete_self _ _⟩
  have hrec : m1 (generateID rnd) = some (GenerateHumanChallenge m t rnd).1 := by
    rw [hkept]; simp [GenerateHumanChallenge]
  exact ValidateHumanChallenge_live m1 t1
    { ChallengeID := generateID rnd, Response := response } _ hrec hbefore

/-- Witness of C2: a challenge issued at time 0 into the empty store, validated
exactly at its deadline. -/
theorem human_issue_then_validate_passes_witness :
    (GenerateHumanChallenge challenges 0 sampleRnd).1.ID = generateID sampleRnd ∧
      (GenerateHumanChallenge challenges 0 sampleRnd).1.ExpiresAt = 0 + 5 * Minute ∧
      (GenerateHumanChallenge challenges 0 sampleRnd).2 (generateID sampleRnd)
        = some (GenerateHumanChallenge challenges 0 sampleRnd).1 ∧
      ∃ m2, ValidateHumanChallenge storeAfterHuman (5 * Minute)
          { ChallengeID := (GenerateHumanChallenge challenges 0 sampleRnd).1.ID,
            Response := str "anything" }
          = ({ Valid := true, Message := str "Human verification passed" }, m2) ∧
        m2 (generateID sampleRnd) = none :=
  human_issue_then_validate_passes challenges 0 sampleRnd storeAfterHuman (5 * Minute)
    (str "anything") rfl (by decide)

/-- C8. Computational round trip: `GenerateAIChallenge` at time `t` returns a
challenge whose id is the `generateID` value (32 lowercase hex digits), of type "computational",
difficulty 1, time limit 5000, `ExpiresAt = t + 1 min`, and whose payload quotes
exactly the first 8 characters of the id; and `ValidateAIChallenge` on that id
at any time `t1` not after `t + 1 min`, with the first 8 hex digits of SHA-256
of those 8 characters as solution, answers
`(true, 0.95, "AI verification passed - autonomy confirmed")`. -/
theorem ai_issue_then_solve_round_trip (m : Store) (t : Time) (rnd : List Nat) (t1 : Time)
    (reasoning : GoString) (hbefore : t1 ≤ t + 1 * Minute) :
    ∃ ch m1, GenerateAIChallenge m t rnd = some (ch, m1) ∧
      ch.ID = generateID rnd ∧ ch.ID.length = 32 ∧ (∀ b ∈ ch.ID, isLowerHex b) ∧
      ch.Type_ = str "computational" ∧ ch.Difficulty = 1 ∧ ch.TimeLimit = 5000 ∧
      ch.ExpiresAt = t + 1 * Minute ∧
      ch.Payload = str "Compute SHA-256 of \x27" ++ ch.ID.take 8
        ++ str "\x27 and return the first 8 hex chars" ∧
      ∃ m2, ValidateAIChallenge m1 t1
          { ChallengeID := ch.ID,
            Solution := (EncodeToString (SHA256.Sum256 (ch.ID.take 8))).take 8,
            Reasoning := reasoning }
        = some ({ Valid := true, AutonomyScore := 0.95,
                  Message := str "AI verification passed - autonomy confirmed" }, m2) := by
  refine ⟨_, _, GenerateAIChallenge_eq m t rnd, rfl, generateID_length rnd, generateID_hex rnd,
    rfl, rfl, rfl, rfl, ?_, (m.set (generateID rnd)
      { ID := generateID rnd, Type_ := [], Prompt := [],
        ExpiresAt := t + 1 * Minute }).delete (generateID rnd), ?_⟩
  · simp [payloadFormat]
  · have h := ValidateAIChallenge_live
      (m.set (generateID rnd)
        { ID := generateID rnd, Type_ := [], Prompt := [], ExpiresAt := t + 1 * Minute }) t1
      { ChallengeID := generateID rnd,
        Solution := (EncodeToString (SHA256.Sum256 ((generateID rnd).take 8))).take 8,
        Reasoning := reasoning }
      { ID := generateID rnd, Type_ := [], Prompt := [], ExpiresAt := t + 1 * Minute }
      (Store.set_self _ _ _) hbefore (by simp [generateID_length])
    rw [if_pos rfl] at h
    exact h

/-- Witness of C8: the id `abcdef1234567890...` issued at time 0 and solved at
time 5. -/
theorem ai_issue_then_solve_round_trip_witness :
    ∃ ch m1, GenerateAIChallenge challenges 0 sampleRnd = some (ch, m1) ∧
      ch.ID = generateID sampleRnd ∧ ch.ID.length = 32 ∧ (∀ b ∈ ch.ID, isLowerHex b) ∧
      ch.Type_ = str "computational" ∧ ch.Difficulty = 1 ∧ ch.TimeLimit = 5000 ∧
      ch.ExpiresAt = 0 + 1 * Minute ∧
      ch.Payload = str "Compute SHA-256 of \x27" ++ ch.ID.take 8
        ++ str "\x27 and return the first 8 hex chars" ∧
      ∃ m2, ValidateAIChallenge m1 5
          { ChallengeID := ch.ID,
            Solution := (EncodeToString (SHA256.Sum256 (ch.ID.take 8))).take 8,
            Reasoning := [] }
        = some ({ Valid := true, AutonomyScore := 0.95,
                  Message := str "AI verification passed - autonomy confirmed" }, m2) :=
  ai_issue_then_solve_round_trip challenges 0 sampleRnd 5 [] (by decide)

/-- C10. No kind check: an id issued by `GenerateAIChallenge` at time `t` is
accepted by `ValidateHumanChallenge` at any time `t1` not after `t + 1 min`,
for every response and without any solution, and is removed; an id issued by
`GenerateHumanChallenge` at time `t` is judged by `ValidateAIChallenge` at any
time `t2` not after `t + 5 min` by the SHA-256 rule on that id, and is
removed. -/
theorem validators_ignore_kind (m : Store) (t : Time) (rnd : List Nat) (t1 t2 : Time)
    (response solution reasoning : GoString)
    (h1 : t1 ≤ t + 1 * Minute) (h2 : t2 ≤ t + 5 * Minute) :
    (∃ ch m1, GenerateAIChallenge m t rnd = some (ch, m1) ∧
      ValidateHumanChallenge m1 t1 { ChallengeID := ch.ID, Response := response }
        = ({ Valid := true, Message := str "Human verification passed" }, m1.delete ch.ID) ∧
      (m1.delete ch.ID) ch.ID = none) ∧
    ValidateAIChallenge (GenerateHumanChallenge m t rnd).2 t2
        { ChallengeID := (GenerateHumanChallenge m t rnd).1.ID, Solution := solution,
          Reasoning := reasoning }
      = some
        (if solution = (EncodeToString (SHA256.Sum256
              ((GenerateHumanChallenge m t rnd).1.ID.take 8))).take 8 then
            { Valid := true, AutonomyScore := 0.95,
              Message := str "AI verification passed - autonomy confirmed" }
          else { Valid := false, AutonomyScore := 0, Message := str "Incorrect solution" },
         (GenerateHumanChallenge m t rnd).2.delete (GenerateHumanChallenge m t rnd).1.ID) ∧
    ((GenerateHumanChallenge m t rnd).2.delete (GenerateHumanChallenge m t rnd).1.ID)
      (GenerateHumanChallenge m t rnd).1.ID = none := by
  refine ⟨⟨_, _, GenerateAIChallenge_eq m t rnd, ?_, Store.delete_self _ _⟩, ?_,
    Store.delete_self _ _⟩
  · exact ValidateHumanChallenge_live _ t1
      { ChallengeID := generateID rnd, Response := response }
      { ID := generateID rnd, Type_ := [], Prompt := [], ExpiresAt := t + 1 * Minute }
      (Store.set_self _ _ _) h1
  · exact ValidateAIChallenge_live (GenerateHumanChallenge m t rnd).2 t2
      { ChallengeID := generateID rnd, Solution := solution, Reasoning := reasoning }
      (GenerateHumanChallenge m t rnd).1 (Store.set_self _ _ _) h2
      (by simp [GenerateHumanChallenge, generateID_length])

/-- Witness of C10: both kinds issued at time 0 into the empty store, each
validated by the other kind's validator at time 5, with an empty response and
an empty solution. -/
theorem validators_ignore_kind_witness :
    (∃ ch m1, GenerateAIChallenge challenges 0 sampleRnd = some (ch, m1) ∧
      ValidateHumanChallenge m1 5 { ChallengeID := ch.ID, Response := [] }
        = ({ Valid := true, Message := str "Human verification passed" }, m1.delete ch.ID) ∧
      (m1.delete ch.ID) ch.ID = none) ∧
    ValidateAIChallenge (GenerateHumanChallenge challenges 0 sampleRnd).2 5
        { ChallengeID := (GenerateHumanChallenge challenges 0 sampleRnd).1.ID, Solution := [],
          Reasoning := [] }
      = some
        (if [] = (EncodeToString (SHA256.Sum256
              ((GenerateHumanChallenge challenges 0 sampleRnd).1.ID.take 8))).take 8 then
            { Valid := true, AutonomyScore := 0.95,
              Message := str "AI verification passed - autonomy confirmed" }
          else { Valid := false, AutonomyScore := 0, Message := str "Incorrect solution" },
         (GenerateHumanChallenge challenges 0 sampleRnd).2.delete
           (GenerateHumanChallenge challenges 0 sampleRnd).1.ID) ∧
    ((GenerateHumanChallenge challenges 0 sampleRnd).2.delete
        (GenerateHumanChallenge challenges 0 sampleRnd).1.ID)
      (GenerateHumanChallenge challenges 0 sampleRnd).1.ID = none :=
  validators_ignore_kind challenges 0 sampleRnd 5 5 [] [] [] (by decide) (by decide)

/-! ## The store invariant -/

/-- C9. Store invariant and slice safety: in every store reachable from the
empty one by calls of the four handlers, every key maps to a record whose `ID`
is the key, and the key is a `generateID` value, 32 lowercase hex digits;
hence the slice `id[:8]` of the issuer and the slice `challenge.ID[:8]` of
`ValidateAIChallenge` are in range, and neither `GenerateAIChallenge` nor
`ValidateAIChallenge` panics, whatever the request carries. -/
theorem reachable_store_ids_wellformed (m : Store) (hreach : Reachable m) :
    (∀ k c, m k = some c →
      c.ID = k ∧ k.length = 32 ∧ (∀ b ∈ k, isLowerHex b) ∧ ∃ rnd, k = generateID rnd) ∧
    (∀ (now : Time) (rnd : List Nat),
      (sliceTo (generateID rnd) 8).isSome = true ∧
      (GenerateAIChallenge m now rnd).isSome = true) ∧
    (∀ (now : Time) (req : AIValidationRequest),
      (∀ c, m req.ChallengeID = some c → (sliceTo c.ID 8).isSome = true) ∧
      (ValidateAIChallenge m now req).isSome = true) := by
  have hlen : ∀ k c, m k = some c → 8 ≤ c.ID.length := by
    intro k c hk
    obtain ⟨hid, rnd, hrnd⟩ := Reachable.ids m hreach k c hk
    rw [hid, hrnd, generateID_length]
    decide
  refine ⟨?_, ?_, ?_⟩
  · intro k c hk
    obtain ⟨hid, rnd, hrnd⟩ := Reachable.ids m hreach k c hk
    refine ⟨hid, ?_, ?_, rnd, hrnd⟩
    · rw [hrnd]; exact generateID_length rnd
    · rw [hrnd]; exact generateID_hex rnd
  · intro now rnd
    constructor
    · rw [sliceTo_of_le (by rw [generateID_length]; decide)]; rfl
    · rw [GenerateAIChallenge_eq]; rfl
  · intro now req
    constructor
    · intro c hc
      rw [sliceTo_of_le (hlen _ c hc)]; rfl
    · exact ValidateAIChallenge_isSome m now req (hlen _)

/-- Witness of C9: the store after one human challenge. -/
theorem reachable_store_ids_wellformed_witness :
    Reachable storeAfterHuman ∧
    (∀ k c, storeAfterHuman k = some c →
      c.ID = k ∧ k.length = 32 ∧ (∀ b ∈ k, isLowerHex b) ∧ ∃ rnd, k = generateID rnd) ∧
    (∀ (now : Time) (rnd : List Nat),
      (sliceTo (generateID rnd) 8).isSome = true ∧
      (GenerateAIChallenge storeAfterHuman now rnd).isSome = true) ∧
    (∀ (now : Time) (req : AIValidationRequest),
      (∀ c, storeAfterHuman req.ChallengeID = some c → (sliceTo c.ID 8).isSome = true) ∧
      (ValidateAIChallenge storeAfterHuman now req).isSome = true) :=
  ⟨Reachable.generateHuman challenges 0 sampleRnd Reachable.start,
   reachable_store_ids_wellformed storeAfterHuman
     (Reachable.generateHuman challenges 0 sampleRnd Reachable.start)⟩

/-! ## Where the handlers leave the record in place -/

/-- C5, the code at an expired record: the computational challenge issued at
time 0 expires at one minute; `ValidateAIChallenge` one nanosecond later
answers "Challenge expired" and returns the store as it was, the record still
in it, so that a second call answers "Challenge expired" again and not
"Challenge not found or expired". -/
theorem validateAI_expired_keeps_record :
    ValidateAIChallenge storeAfterAI (Minute + 1)
        { ChallengeID := generateID sampleRnd, Solution := sampleSolution, Reasoning := [] }
      = some ({ Valid := false, AutonomyScore := 0, Message := str "Challenge expired" },
              storeAfterAI) ∧
    (storeAfterAI (generateID sampleRnd)).isSome = true ∧
    ValidateAIChallenge storeAfterAI (Minute + 2)
        { ChallengeID := generateID sampleRnd, Solution := sampleSolution, Reasoning := [] }
      = some ({ Valid := false, AutonomyScore := 0, Message := str "Challenge expired" },
              storeAfterAI) ∧
    str "Challenge expired" ≠ str "Challenge not found or expired" :=
  ⟨ValidateAIChallenge_expired storeAfterAI (Minute + 1)
      { ChallengeID := generateID sampleRnd, Solution := sampleSolution, Reasoning := [] }
      { ID := generateID sampleRnd, Type_ := [], Prompt := [], ExpiresAt := 0 + 1 * Minute }
      (by decide) (by decide),
   by decide,
   ValidateAIChallenge_expired storeAfterAI (Minute + 2)
      { ChallengeID := generateID sampleRnd, Solution := sampleSolution, Reasoning := [] }
      { ID := generateID sampleRnd, Type_ := [], Prompt := [], ExpiresAt := 0 + 1 * Minute }
      (by decide) (by decide),
   by decide⟩

set_option maxRecDepth 100000 in
/-- C3, the code under two concurrent calls: with one challenge issued and two
validation calls for it in flight, the schedule lookup, lookup, rest, rest lets
both calls read the record before either deletes it, and both return
`valid = true`, for the human validator and for the computational validator
with the right solution; the schedule in which the first call finishes before
the second starts gives one `true` and one `false`. -/
theorem concurrent_validations_both_accept :
    validFlags ValidationResult.Valid
        (concurrentHuman storeAfterHuman 5
          { ChallengeID := generateID sampleRnd, Response := [] } 2 [0, 1, 0, 1]).1
      = [true, true] ∧
    validFlags AIValidationResult.Valid
        (concurrentAI storeAfterAI 5
          { ChallengeID := generateID sampleRnd, Solution := sampleSolution, Reasoning := [] }
          2 [0, 1, 0, 1]).1
      = [true, true] ∧
    validFlags ValidationResult.Valid
        (concurrentHuman storeAfterHuman 5
          { ChallengeID := generateID sampleRnd, Response := [] } 2 [0, 0, 1, 1]).1
      = [true, false] ∧
    validFlags AIValidationResult.Valid
        (concurrentAI storeAfterAI 5
          { ChallengeID := generateID sampleRnd, Solution := sampleSolution, Reasoning := [] }
          2 [0, 0, 1, 1]).1
      = [true, false] := by
  decide

/-! ## Test vectors -/

set_option maxRecDepth 100000 in
/-- The digest of "abc" (FIPS 180-4 example) and of the empty string, and the
sample id with its solution. -/
theorem Sum256_test_vectors :
    EncodeToString (SHA256.Sum256 (str "abc"))
      = str "ba7816bf8f01cfea414140de5dae2223b00361a396177a9cb410ff61f20015ad" ∧
    EncodeToString (SHA256.Sum256 [])
      = str "e3b0c44298fc1c149afbf4c8996fb92427ae41e4649b934ca495991b7852b855" ∧
    generateID sampleRnd = str "abcdef12345678900001020304050607" ∧
    (generateID sampleRnd).take 8 = str "abcdef12" ∧
    sampleSolution = str "33004df5" := by
  decide

end Nexus
